import Mathlib

/-!
Verification of the pyame client library (`src/pyame/client.py`,
`src/pyame/errors.py`) against its specification.

The Python code is shallowly embedded: JSON values are an inductive type,
the `MISSING` sentinel is a dedicated constructor of `PValue` (per the
spec, the sentinel is distinct from every legitimate value, including
falsy ones), exceptions become an `Except` error type, and the network
is a parameter `server : HttpRequest → HttpResponse`, so that every
function is pure and executable.

The functions `json_or_data`, `raise_http_errors` and the constant
`MISSING` are imported by `client.py` from `pyame/utils.py`, a module of
this repository that is not among the provided source files; they are
modelled from the spec (section 4.2) and marked as such in their doc
comments.  Everything else is translated directly from the source.
-/

namespace Pyame

/-- A JSON value as it appears in request and response bodies.  Only the
shapes the client actually sends or inspects are needed. -/
inductive JValue where
  | jStr (s : String)
  | jBool (b : Bool)
  | jInt (n : Int)
  | jNull
  deriving DecidableEq

/-- A Python `bytes` object, modelled by its octets together with the
value of `json.loads(b.decode())` (`none` when the bytes are not valid
JSON).  Carrying the parse as data avoids re-implementing a JSON parser
while keeping `HTTPException.__init__`'s decoding step faithful. -/
structure PyBytes where
  raw : List Nat
  jsonParse : Option (List (String × JValue))
  deriving DecidableEq

/-- An outgoing parameter value: either the `MISSING` sentinel from
`pyame/utils.py` (meaning "caller did not supply this optional
argument") or an actual JSON value.  The sentinel is a separate
constructor, hence distinct from every `JValue`, matching the spec's
invariant that `OMITTED` never equals a legitimate argument. -/
inductive PValue where
  | MISSING
  | val (v : JValue)
  deriving DecidableEq

/-- The decoded response payload of `Client._request`: a structured JSON
mapping or an opaque byte sequence. -/
inductive Data where
  | dict (d : List (String × JValue))
  | bytes (b : PyBytes)
  deriving DecidableEq

/-- The exception classes declared in `src/pyame/errors.py`:
`HTTPException` and its nine subclasses. -/
inductive ErrorKind where
  | httpException
  | badRequest
  | unauthorized
  | forbidden
  | notFound
  | payloadTooLarge
  | internalServerError
  | notImplemented
  | badGateway
  | serviceUnavailiable
  deriving DecidableEq

/-- The `status` class variable of each class in `src/pyame/errors.py`:
`-1` on the base class `HTTPException` (line 30), and the declared code
on each subclass (lines 41-74). -/
def classStatus : ErrorKind → Int
  | .httpException => -1
  | .badRequest => 400
  | .unauthorized => 401
  | .forbidden => 403
  | .notFound => 404
  | .payloadTooLarge => 413
  | .internalServerError => 500
  | .notImplemented => 501
  | .badGateway => 502
  | .serviceUnavailiable => 503

/-- The classes that survive the introspection scan at
`src/pyame/errors.py:77`: of `globals().values()`, only the ten declared
classes satisfy `isinstance(cls, type) and issubclass(cls, HTTPException)`
(the imported module and `typing` aliases are not types); in particular
`HTTPException` itself passes, since `issubclass(HTTPException,
HTTPException)` holds.  Listed in module-definition order. -/
def declaredClasses : List ErrorKind :=
  [.httpException, .badRequest, .unauthorized, .forbidden, .notFound,
   .payloadTooLarge, .internalServerError, .notImplemented, .badGateway,
   .serviceUnavailiable]

/-- The dict comprehension at `src/pyame/errors.py:77`:
`{cls.status: cls for cls in globals().values() if ...}`.  The statuses
are pairwise distinct, so the association list faithfully represents the
resulting dict. -/
def error_mapping : List (Int × ErrorKind) :=
  declaredClasses.map (fun cls => (classStatus cls, cls))

/-- An instance of `HTTPException` (or a subclass): the kind (class), the
`status` attribute, and the decoded `data` mapping
(`src/pyame/errors.py:29-34`). -/
structure HTTPExceptionObj where
  kind : ErrorKind
  status : Int
  data : List (String × JValue)
  deriving DecidableEq

/-- The `message` property (`src/pyame/errors.py:36-38`):
`self.data.get('message')`. -/
def HTTPExceptionObj.message (e : HTTPExceptionObj) : Option JValue :=
  e.data.lookup "message"

/-- The decoding step of `HTTPException.__init__`
(`src/pyame/errors.py:33`): `data if isinstance(data, dict) else
json.loads(data.decode())`; `none` when the bytes are not valid JSON
(in Python, `json.loads` would raise). -/
def decodedDict : Data → Option (List (String × JValue))
  | .dict d => some d
  | .bytes b => b.jsonParse

/-- A raised Python exception, as the caller can distinguish them:
`assert` failures and `TypeError` are usage errors, `httpError` is a
server-reported `HTTPException`, `jsonDecodeError` models a
`json.JSONDecodeError` escaping from body decoding. -/
inductive PyError where
  | assertionError (msg : String)
  | typeError (msg : String)
  | jsonDecodeError
  | httpError (e : HTTPExceptionObj)
  deriving DecidableEq

/-- An outgoing HTTP request as `Client._request` builds it. -/
structure HttpRequest where
  method : String
  url : String
  body : List (String × JValue)
  headers : List (String × String)
  deriving DecidableEq

/-- An HTTP response: status, whether the declared content type is JSON,
and the body bytes. -/
structure HttpResponse where
  status : Int
  contentTypeJson : Bool
  body : PyBytes
  deriving DecidableEq

/-- Modelled from the spec: `json_or_data` is imported from
`pyame/utils.py`, which is not among the provided source files.  Spec
section 4.2: "If the response's content type indicates JSON, parse it
into a structured mapping; otherwise treat the body as an opaque byte
sequence." -/
def json_or_data (r : HttpResponse) : Except PyError Data :=
  if r.contentTypeJson then
    match r.body.jsonParse with
    | some d => .ok (.dict d)
    | none => .error .jsonDecodeError
  else
    .ok (.bytes r.body)

/-- Modelled from the spec: `raise_http_errors` is imported from
`pyame/utils.py`, which is not among the provided source files.  Spec
sections 4.2 and 6: if the status is in the success range, return;
otherwise decode the body as JSON, look the status up in the taxonomy
(`error_mapping`) and raise the matching kind with the decoded message;
"any other non-success status → generic HTTPException carrying the raw
status". -/
def raise_http_errors (data : Data) (status : Int) : Except PyError Unit :=
  if 200 ≤ status ∧ status < 300 then
    .ok ()
  else
    match decodedDict data with
    | none => .error .jsonDecodeError
    | some d =>
      match error_mapping.lookup status with
      | some kind => .error (.httpError { kind := kind, status := status, data := d })
      | none => .error (.httpError { kind := .httpException, status := status, data := d })

/-- The client state (`src/pyame/client.py:122-124`): the api key and
the optional live session.  A session is modelled by a numeric identity;
`nextSessionId` models `aiohttp.ClientSession()` allocating a fresh
object, so that "a new session was created" is observable. -/
structure Client where
  api_key : String
  session : Option Nat
  nextSessionId : Nat
  deriving DecidableEq

/-- The class variable `_BASE` (`src/pyame/client.py:120`). -/
def Client._BASE : String := "https://v1.api.amethyste.moe"

/-- The constructor `Client.__init__` (`src/pyame/client.py:122-124`). -/
def Client.init (api_key : String) : Client :=
  { api_key := api_key, session := none, nextSessionId := 0 }

/-- The method `Client.create_session` (`src/pyame/client.py:126-131`):
`if self.session is None: self.session = aiohttp.ClientSession()`. -/
def Client.create_session (c : Client) : Client :=
  match c.session with
  | none => { c with session := some c.nextSessionId, nextSessionId := c.nextSessionId + 1 }
  | some _ => c

/-- The method `Client.close` (`src/pyame/client.py:133-139`):
`if self.session is not None: await self.session.close(); self.session = None`. -/
def Client.close (c : Client) : Client :=
  match c.session with
  | some _ => { c with session := none }
  | none => c

/-- The method `Client.__aenter__` (`src/pyame/client.py:141-143`). -/
def Client.aenter (c : Client) : Client :=
  c.create_session

/-- The method `Client.__aexit__` (`src/pyame/client.py:145-146`):
called unconditionally, whatever `exc_args` the body produced. -/
def Client.aexit (c : Client) : Client :=
  c.close

/-- The `async with client:` form.  Python's semantics of a context
manager: run `__aenter__`, run the body (which returns a result or
raises, and may change the client state), then run `__aexit__` on every
exit path. -/
def Client.asyncWith {ε α : Type} (c : Client) (body : Client → Except ε α × Client) :
    Except ε α × Client :=
  let entered := c.aenter
  let r := body entered
  (r.1, r.2.aexit)

/-- The property `Client.headers` (`src/pyame/client.py:148-150`). -/
def Client.headers (c : Client) : List (String × String) :=
  [("Authorization", "Bearer " ++ c.api_key)]

/-- The sentinel filter inside `Client._request`
(`src/pyame/client.py:154`):
`{k: v for k, v in json.items() if v is not MISSING}`. -/
def filterParams (json : List (String × PValue)) : List (String × JValue) :=
  json.filterMap (fun kv =>
    match kv.2 with
    | .MISSING => none
    | .val v => some (kv.1, v))

/-- The request `Client._request` sends (`src/pyame/client.py:154`):
method, `self._BASE + endpoint`, the sentinel-filtered JSON body, and
the bearer-auth headers. -/
def Client.buildRequest (c : Client) (method endpoint : String)
    (json : List (String × PValue)) : HttpRequest :=
  { method := method
    url := Client._BASE ++ endpoint
    body := filterParams json
    headers := c.headers }

/-- The method `Client._request` (`src/pyame/client.py:152-157`):
`assert self.session is not None`, send the request, decode the body by
content type, run `raise_http_errors`, and return the decoded data. -/
def Client._request (c : Client) (method endpoint : String)
    (json : List (String × PValue)) (server : HttpRequest → HttpResponse) :
    Except PyError Data :=
  match c.session with
  | none => .error (.assertionError "self.session is not None")
  | some _ =>
    let response := server (c.buildRequest method endpoint json)
    match json_or_data response with
    | .error e => .error e
    | .ok data =>
      match raise_http_errors data response.status with
      | .error e => .error e
      | .ok _ => .ok data

/-- The method `Client._generate_request` (`src/pyame/client.py:159-162`):
dispatch with `POST` and `'/generate/' + name`, then
`assert isinstance(data, bytes)` and return the bytes. -/
def Client._generate_request (c : Client) (name : String)
    (json : List (String × PValue)) (server : HttpRequest → HttpResponse) :
    Except PyError PyBytes :=
  match c._request "POST" ("/generate/" ++ name) json server with
  | .error e => .error e
  | .ok (.bytes b) => .ok b
  | .ok (.dict _) => .error (.assertionError "isinstance(data, bytes)")

/-- The method `Client.greyple` (`src/pyame/client.py:561-575`). -/
def Client.greyple (c : Client) (image_url : String) (invert : PValue)
    (server : HttpRequest → HttpResponse) : Except PyError PyBytes :=
  c._generate_request "greyple" [("url", .val (.jStr image_url)), ("invert", invert)] server

/-- The alias binding `grayple = greyple` (`src/pyame/client.py:577`). -/
def Client.grayple : Client → String → PValue → (HttpRequest → HttpResponse) →
    Except PyError PyBytes :=
  Client.greyple

/-- The method `Client.greyscale` (`src/pyame/client.py:579-591`). -/
def Client.greyscale (c : Client) (image_url : String)
    (server : HttpRequest → HttpResponse) : Except PyError PyBytes :=
  c._generate_request "greyscale" [("url", .val (.jStr image_url))] server

/-- The alias binding `grayscale = greyscale` (`src/pyame/client.py:593`). -/
def Client.grayscale : Client → String → (HttpRequest → HttpResponse) →
    Except PyError PyBytes :=
  Client.greyscale

/-- The keyword arguments `Client.triggered` forwards to
`_generate_request` (`src/pyame/client.py:993`), in source order:
`url=image_url, blue=blur, greyscale=greyscale, horizontal=horizontal,
invert=invert, sepia=sepia, veritical=vertical`.  Note the keys `blue`
and `veritical`. -/
def Client.triggeredArgs (image_url : String)
    (blur greyscale horizontal invert sepia vertical : PValue) :
    List (String × PValue) :=
  [("url", .val (.jStr image_url)), ("blue", blur), ("greyscale", greyscale),
   ("horizontal", horizontal), ("invert", invert), ("sepia", sepia),
   ("veritical", vertical)]

/-- The method `Client.triggered` (`src/pyame/client.py:964-993`): reject
the call when both `greyscale` and `grayscale` are supplied, otherwise
resolve the alias (`greyscale = grayscale if grayscale is not MISSING
else greyscale`) and dispatch. -/
def Client.triggered (c : Client) (image_url : String)
    (blur greyscale grayscale horizontal invert sepia vertical : PValue)
    (server : HttpRequest → HttpResponse) : Except PyError PyBytes :=
  if greyscale ≠ PValue.MISSING ∧ grayscale ≠ PValue.MISSING then
    .error (.typeError "greyscale and grayscale cannot both be provided")
  else
    let greyscale := if grayscale ≠ PValue.MISSING then grayscale else greyscale
    c._generate_request "triggered"
      (Client.triggeredArgs image_url blur greyscale horizontal invert sepia vertical)
      server

/-! ## Helper lemmas -/

/-- Membership in the sentinel-filtered body: a pair survives the filter
exactly when it was supplied with a non-sentinel value. -/
lemma mem_filterParams (params : List (String × PValue)) (k : String) (v : JValue) :
    (k, v) ∈ filterParams params ↔ (k, PValue.val v) ∈ params := by
  induction params with
  | nil => simp [filterParams]
  | cons head tail ih =>
    obtain ⟨kh, pv⟩ := head
    cases pv with
    | MISSING =>
      simp only [filterParams, List.filterMap_cons] at ih ⊢
      simp [ih]
    | val w =>
      simp only [filterParams, List.filterMap_cons] at ih ⊢
      simp [ih, List.mem_cons, Prod.mk.injEq]

/-- The keys of the filtered body are the keys of the non-sentinel
entries, in order. -/
lemma filterParams_keys (params : List (String × PValue)) :
    (filterParams params).map Prod.fst =
      (params.filter (fun kv => kv.2 ≠ PValue.MISSING)).map Prod.fst := by
  induction params with
  | nil => simp [filterParams]
  | cons head tail ih =>
    obtain ⟨kh, pv⟩ := head
    cases pv <;>
      simp [filterParams, List.filterMap_cons, List.filter_cons, ih] <;>
      simpa [filterParams] using ih

/-- Closing a client always leaves `session` cleared. -/
lemma close_session_none (c : Client) : (Client.close c).session = none := by
  cases hc : c.session <;> simp [Client.close, hc]

/-! ## Claim theorems -/

/-- C3: for every parameter mapping passed to the dispatcher, the
serialized outgoing body (the `body` of the request `_request` builds)
contains no key supplied as the `MISSING` sentinel, and contains a key
with the unchanged value for every parameter supplied with a
non-sentinel value — including falsy values such as `false`, `0` and the
empty string, which are ordinary `JValue`s distinct from the sentinel. -/
theorem c3_sentinel_filtering (c : Client) (method endpoint : String)
    (params : List (String × PValue)) (k : String) (v : JValue) :
    ((k, v) ∈ (c.buildRequest method endpoint params).body ↔ (k, PValue.val v) ∈ params) ∧
    (c.buildRequest method endpoint params).body.map Prod.fst =
      (params.filter (fun kv => kv.2 ≠ PValue.MISSING)).map Prod.fst := by
  exact ⟨mem_filterParams params k v, filterParams_keys params⟩

/-- C4: session lifecycle.  Opening twice equals opening once and leaves
a live session (no second session is created); closing twice equals
closing once and leaves the session reference cleared; the scoped form
opens the session on entry and leaves it closed after the scope exits,
for every body — including bodies that raise, since `body` ranges over
all result-and-state outcomes and `aexit` runs unconditionally. -/
theorem c4_session_lifecycle {ε α : Type} (c : Client)
    (body : Client → Except ε α × Client) :
    Client.create_session (Client.create_session c) = Client.create_session c ∧
    (Client.create_session c).session.isSome = true ∧
    Client.close (Client.close c) = Client.close c ∧
    (Client.close c).session = none ∧
    (Client.aenter c).session.isSome = true ∧
    (Client.asyncWith c body).2.session = none := by
  refine ⟨?_, ?_, ?_, close_session_none c, ?_, ?_⟩
  · cases hc : c.session <;> simp [Client.create_session, hc]
  · cases hc : c.session <;> simp [Client.create_session, hc]
  · cases hc : c.session <;> simp [Client.close, hc]
  · cases hc : c.session <;> simp [Client.aenter, Client.create_session, hc]
  · exact close_session_none _

/-- C5: dispatching with no live session fails fast with the assertion
error from `assert self.session is not None`, a `PyError` constructor
disjoint from the server-reported `httpError` kinds, so the caller can
distinguish the usage error from every taxonomy error. -/
theorem c5_no_session_fails_fast (c : Client) (method endpoint : String)
    (json : List (String × PValue)) (server : HttpRequest → HttpResponse)
    (h : c.session = none) :
    Client._request c method endpoint json server =
      .error (.assertionError "self.session is not None") ∧
    ∀ e : HTTPExceptionObj,
      PyError.assertionError "self.session is not None" ≠ PyError.httpError e := by
  refine ⟨?_, fun e he => by cases he⟩
  simp [Client._request, h]

/-- C5 witness: a concrete sessionless client fails fast. -/
theorem c5_no_session_fails_fast_witness :
    Client._request { api_key := "k", session := none, nextSessionId := 0 }
        "GET" "/generate" []
        (fun _ => { status := 200, contentTypeJson := false, body := { raw := [], jsonParse := none } }) =
      .error (.assertionError "self.session is not None") ∧
    ∀ e : HTTPExceptionObj,
      PyError.assertionError "self.session is not None" ≠ PyError.httpError e :=
  c5_no_session_fails_fast { api_key := "k", session := none, nextSessionId := 0 }
    "GET" "/generate" []
    (fun _ => { status := 200, contentTypeJson := false, body := { raw := [], jsonParse := none } })
    rfl

/-- C8: the duplicate-spelling aliases are the very same functions —
`grayple = greyple` and `grayscale = greyscale` — so for every client,
input and server they perform the identical request and return the
identical result. -/
theorem c8_alias_identical_behavior :
    Client.grayple = Client.greyple ∧ Client.grayscale = Client.greyscale :=
  ⟨rfl, rfl⟩

/-- C9: the registry `error_mapping` built by the introspection scan has
key set exactly `{-1, 400, 401, 403, 404, 413, 500, 501, 502, 503}`:
each of the nine declared subclasses keyed by its status, plus the base
class `HTTPException` under its sentinel status `-1`, admitted because
`issubclass(HTTPException, HTTPException)` holds. -/
theorem c9_error_mapping_keys :
    error_mapping.map Prod.fst =
      [-1, 400, 401, 403, 404, 413, 500, 501, 502, 503] ∧
    error_mapping =
      [(-1, .httpException), (400, .badRequest), (401, .unauthorized),
       (403, .forbidden), (404, .notFound), (413, .payloadTooLarge),
       (500, .internalServerError), (501, .notImplemented),
       (502, .badGateway), (503, .serviceUnavailiable)] := by
  constructor <;> rfl

/-- C1: for every status in the taxonomy table (every key of
`error_mapping` other than the sentinel `-1`), dispatching a request
whose response has that status raises exactly the corresponding error
kind, with the server message decoded from the JSON response body
attached to the raised error via its `data`. -/
theorem c1_taxonomy_statuses_raise_matching_kind (key : String) (sid nid : Nat)
    (method endpoint : String) (json : List (String × PValue))
    (d : List (String × JValue)) (s : Int) (kind : ErrorKind)
    (hmem : (s, kind) ∈ error_mapping) (hpos : 0 ≤ s) :
    Client._request { api_key := key, session := some sid, nextSessionId := nid }
        method endpoint json
        (fun _ => { status := s, contentTypeJson := true, body := { raw := [], jsonParse := some d } }) =
      .error (.httpError { kind := kind, status := s, data := d }) ∧
    HTTPExceptionObj.message { kind := kind, status := s, data := d } =
      d.lookup "message" := by
  refine ⟨?_, rfl⟩
  simp only [error_mapping, declaredClasses, classStatus, List.map_cons, List.map_nil,
    List.mem_cons, List.not_mem_nil, or_false, Prod.mk.injEq] at hmem
  rcases hmem with h | h | h | h | h | h | h | h | h | h
  all_goals obtain ⟨rfl, rfl⟩ := h
  · exact absurd hpos (by norm_num)
  all_goals rfl

/-- C1 witness: a 401 response with body `{"message": "invalid token"}`
raises `Unauthorized` carrying that message. -/
theorem c1_taxonomy_statuses_raise_matching_kind_witness :
    Client._request { api_key := "k", session := some 0, nextSessionId := 1 }
        "POST" "/generate/crush" [("url", PValue.val (JValue.jStr "u"))]
        (fun _ => { status := 401, contentTypeJson := true,
                    body := { raw := [], jsonParse := some [("message", JValue.jStr "invalid token")] } }) =
      .error (.httpError { kind := .unauthorized, status := 401,
                           data := [("message", JValue.jStr "invalid token")] }) ∧
    HTTPExceptionObj.message { kind := .unauthorized, status := 401,
                               data := [("message", JValue.jStr "invalid token")] } =
      List.lookup "message" [("message", JValue.jStr "invalid token")] :=
  c1_taxonomy_statuses_raise_matching_kind "k" 0 1 "POST" "/generate/crush"
    [("url", PValue.val (JValue.jStr "u"))]
    [("message", JValue.jStr "invalid token")] 401 .unauthorized (by decide) (by decide)

/-- C2: for every non-success status absent from the taxonomy table,
dispatch raises the generic `httpException` kind carrying the raw
numeric status and the decoded body — it neither crashes nor silently
swallows the failure (modelled from the spec, since `raise_http_errors`
is defined in `pyame/utils.py`). -/
theorem c2_unknown_status_generic_error (key : String) (sid nid : Nat)
    (method endpoint : String) (json : List (String × PValue))
    (d : List (String × JValue)) (s : Int)
    (hns : ¬(200 ≤ s ∧ s < 300)) (hnm : error_mapping.lookup s = none) :
    Client._request { api_key := key, session := some sid, nextSessionId := nid }
        method endpoint json
        (fun _ => { status := s, contentTypeJson := true, body := { raw := [], jsonParse := some d } }) =
      .error (.httpError { kind := .httpException, status := s, data := d }) := by
  simp only [Client._request, json_or_data, raise_http_errors, decodedDict, if_true,
    reduceIte]
  rw [if_neg hns, hnm]

/-- C2 witness: a 418 response raises the generic kind carrying 418. -/
theorem c2_unknown_status_generic_error_witness :
    Client._request { api_key := "k", session := some 0, nextSessionId := 1 }
        "POST" "/generate/crush" [("url", PValue.val (JValue.jStr "u"))]
        (fun _ => { status := 418, contentTypeJson := true,
                    body := { raw := [], jsonParse := some [("message", JValue.jStr "teapot")] } }) =
      .error (.httpError { kind := .httpException, status := 418,
                           data := [("message", JValue.jStr "teapot")] }) :=
  c2_unknown_status_generic_error "k" 0 1 "POST" "/generate/crush"
    [("url", PValue.val (JValue.jStr "u"))]
    [("message", JValue.jStr "teapot")] 418 (by decide) (by decide)

/-- C6: calling `triggered` with both `greyscale` and `grayscale`
supplied (neither the sentinel) raises the `TypeError` usage error, and
does so for every server and every client state — so before any network
call, since the result does not depend on `server` at all. -/
theorem c6_conflicting_aliases_rejected (c : Client) (image_url : String)
    (blur greyscale grayscale horizontal invert sepia vertical : PValue)
    (server : HttpRequest → HttpResponse)
    (hg : greyscale ≠ PValue.MISSING) (hga : grayscale ≠ PValue.MISSING) :
    Client.triggered c image_url blur greyscale grayscale horizontal invert sepia
        vertical server =
      .error (.typeError "greyscale and grayscale cannot both be provided") := by
  rw [Client.triggered, if_pos ⟨hg, hga⟩]

/-- C6 witness: `triggered(url, greyscale=true, grayscale=false)` with
everything else omitted is rejected as a usage error. -/
theorem c6_conflicting_aliases_rejected_witness :
    Client.triggered { api_key := "k", session := some 0, nextSessionId := 1 }
        "http://x/img.png" PValue.MISSING
        (PValue.val (JValue.jBool true)) (PValue.val (JValue.jBool false))
        PValue.MISSING PValue.MISSING PValue.MISSING PValue.MISSING
        (fun _ => { status := 200, contentTypeJson := false, body := { raw := [1], jsonParse := none } }) =
      .error (.typeError "greyscale and grayscale cannot both be provided") :=
  c6_conflicting_aliases_rejected { api_key := "k", session := some 0, nextSessionId := 1 }
    "http://x/img.png" PValue.MISSING
    (PValue.val (JValue.jBool true)) (PValue.val (JValue.jBool false))
    PValue.MISSING PValue.MISSING PValue.MISSING PValue.MISSING
    (fun _ => { status := 200, contentTypeJson := false, body := { raw := [1], jsonParse := none } })
    (by decide) (by decide)

/-- C7: `_generate_request` wraps dispatch with method `POST` and route
`'/generate/' + name`: it returns bytes exactly when dispatch on that
method and route returned those bytes, turns a structured (dict) success
into the assertion error — so a structured result can never be returned
— and propagates every dispatch error unchanged. -/
theorem c7_generate_request_wraps_dispatch (c : Client) (name : String)
    (json : List (String × PValue)) (server : HttpRequest → HttpResponse) :
    (∀ b : PyBytes,
      Client._generate_request c name json server = .ok b ↔
        Client._request c "POST" ("/generate/" ++ name) json server = .ok (.bytes b)) ∧
    (∀ d : List (String × JValue),
      Client._request c "POST" ("/generate/" ++ name) json server = .ok (.dict d) →
        Client._generate_request c name json server =
          .error (.assertionError "isinstance(data, bytes)")) ∧
    (∀ e : PyError,
      Client._request c "POST" ("/generate/" ++ name) json server = .error e →
        Client._generate_request c name json server = .error e) := by
  refine ⟨fun b => ?_, fun d hd => ?_, fun e2 he => ?_⟩
  · rcases h : Client._request c "POST" ("/generate/" ++ name) json server with e | data
    · simp [Client._generate_request, h]
    · cases data <;> simp [Client._generate_request, h]
  · simp [Client._generate_request, hd]
  · simp [Client._generate_request, he]

/-- C10: the body `triggered` serializes carries the supplied `blur`
flag under the JSON key `blue` and the supplied `vertical` flag under
the JSON key `veritical`; no key named `blur` or `vertical` ever appears
in the outgoing body.  The first conjunct ties `triggered` (with the
`grayscale` alias omitted) to the dispatched argument list, the rest
describe the body of the request built from it. -/
theorem c10_blur_vertical_misnamed_keys (c : Client) (image_url : String)
    (blur greyscale horizontal invert sepia vertical : PValue)
    (server : HttpRequest → HttpResponse) :
    (Client.triggered c image_url blur greyscale PValue.MISSING horizontal invert
        sepia vertical server =
      Client._generate_request c "triggered"
        (Client.triggeredArgs image_url blur greyscale horizontal invert sepia vertical)
        server) ∧
    (∀ v : JValue, ("blur", v) ∉
      (c.buildRequest "POST" "/generate/triggered"
        (Client.triggeredArgs image_url blur greyscale horizontal invert sepia vertical)).body) ∧
    (∀ v : JValue, ("vertical", v) ∉
      (c.buildRequest "POST" "/generate/triggered"
        (Client.triggeredArgs image_url blur greyscale horizontal invert sepia vertical)).body) ∧
    (∀ v : JValue, ("blue", v) ∈
      (c.buildRequest "POST" "/generate/triggered"
        (Client.triggeredArgs image_url blur greyscale horizontal invert sepia vertical)).body ↔
      blur = PValue.val v) ∧
    (∀ v : JValue, ("veritical", v) ∈
      (c.buildRequest "POST" "/generate/triggered"
        (Client.triggeredArgs image_url blur greyscale horizontal invert sepia vertical)).body ↔
      vertical = PValue.val v) := by
  refine ⟨?_, ?_, ?_, ?_, ?_⟩
  · rw [Client.triggered, if_neg (by simp)]
    simp
  · intro v
    rw [Client.buildRequest]
    rw [mem_filterParams]
    simp [Client.triggeredArgs, Prod.mk.injEq]
  · intro v
    rw [Client.buildRequest]
    rw [mem_filterParams]
    simp [Client.triggeredArgs, Prod.mk.injEq]
  · intro v
    rw [Client.buildRequest]
    rw [mem_filterParams]
    simp [Client.triggeredArgs, Prod.mk.injEq, eq_comm]
  · intro v
    rw [Client.buildRequest]
    rw [mem_filterParams]
    simp [Client.triggeredArgs, Prod.mk.injEq, eq_comm]

end Pyame
